import Mathlib

/-!
Verification development for the result-parsing and report-rendering core of
the kafka-performance-test-wrapper repository (src/lib/parser.py and
src/lib/reporter.py), as a shallow embedding.

Modelling conventions:
* Python strings are Lean `String`; all primitive operations (split, strip,
  replace, containment) are reimplemented structurally over `List Char` so
  that every definition evaluates by kernel reduction.
* Python `float` values are modelled as exact rationals: `PyF` is an
  unnormalised numerator/denominator pair (kept away from Mathlib `Rat` so
  every operation kernel-reduces).  The model covers finite decimal literals
  with optional sign, decimal point and exponent; the Python forms `inf`,
  `nan`, IEEE negative zero, underscore separators and non-ASCII digits are
  outside the model, and decimal rendering uses round-half-even on the exact
  rational where CPython rounds the nearest binary double (the two agree on
  all inputs exercised here and differ only on representation knife edges).
* Python dicts are insertion-ordered association lists
  `List (String × String)`; `dict.get` is `mget` / `mgetD`.
* An uncaught Python exception is modelled as `Except.error`.
-/

namespace KafkaPerf

/-- Test whether `p` is a prefix of `l` (List.isPrefixOf, spelled out). -/
def prefOf : List Char → List Char → Bool
  | [], _ => true
  | _ :: _, [] => false
  | a :: as, b :: bs => a = b && prefOf as bs

/-- Python substring containment `pat in hay` over char lists. -/
def containsList : List Char → List Char → Bool
  | hay, pat =>
    if prefOf pat hay then true
    else match hay with
      | [] => false
      | _ :: t => containsList t pat

/-- Python `pat in s` on strings. -/
def strContains (s pat : String) : Bool := containsList s.data pat.data

/-- Split a char list at every char satisfying `p`, keeping empty pieces,
    like Python str.split with an explicit separator. -/
def splitPred (p : Char → Bool) : List Char → List (List Char)
  | [] => [[]]
  | c :: rest =>
    let r := splitPred p rest
    if p c then [] :: r
    else match r with
      | [] => [[c]]
      | g :: gs => (c :: g) :: gs

/-- Python `s.split(sep)` for a one-char separator. -/
def pySplit (sep : Char) (s : String) : List String :=
  (splitPred (fun c => c = sep) s.data).map (fun l => String.mk l)

/-- Strip whitespace from both ends of a char list. -/
def trimList (l : List Char) : List Char :=
  ((l.dropWhile Char.isWhitespace).reverse.dropWhile Char.isWhitespace).reverse

/-- Python `s.strip()` (ASCII whitespace subset). -/
def pyStrip (s : String) : String := String.mk (trimList s.data)

/-- One step of Python `s.replace(old, new)`: fuel-indexed scanner replacing
    every non-overlapping occurrence left to right. -/
def replaceGo (pat repl : List Char) : ℕ → List Char → List Char
  | 0, l => l
  | _ + 1, [] => []
  | fuel + 1, c :: rest =>
    if prefOf pat (c :: rest) && pat ≠ [] then
      repl ++ replaceGo pat repl fuel ((c :: rest).drop pat.length)
    else
      c :: replaceGo pat repl fuel rest

/-- Python `s.replace(old, new)`. -/
def pyReplace (s pat repl : String) : String :=
  String.mk (replaceGo pat.data repl.data s.data.length s.data)

/-- Python `s.split()` with no argument: whitespace runs, empties dropped. -/
def wsTokens (s : String) : List String :=
  ((splitPred Char.isWhitespace s.data).filter (fun l => ¬ l = [])).map
    (fun l => String.mk l)

/-- Decimal digit character. -/
def digitChar (d : ℕ) : Char := Char.ofNat (48 + d)

/-- Digits of a natural number, most significant first (fuel-indexed). -/
def natCharsGo : ℕ → ℕ → List Char
  | 0, _ => []
  | fuel + 1, n =>
    if n < 10 then [digitChar n]
    else natCharsGo fuel (n / 10) ++ [digitChar (n % 10)]

/-- Decimal digit list of a natural number. -/
def natChars (n : ℕ) : List Char := natCharsGo (n + 1) n

/-- Decimal string of a natural number. -/
def natStr (n : ℕ) : String := String.mk (natChars n)

/-- Decimal string of an integer (Python `str(int)`). -/
def intStr (i : ℤ) : String := (if i < 0 then "-" else "") ++ natStr i.natAbs

/-- Insert a comma after every group of three chars of a reversed digit
    list: helper for thousands grouping. -/
def group3Rev : List Char → List Char
  | a :: b :: c :: d :: rest => a :: b :: c :: ',' :: group3Rev (d :: rest)
  | l => l

/-- Thousands-grouped decimal string of a natural number, Python `{n:,}`. -/
def groupNat (n : ℕ) : String := String.mk ((group3Rev (natChars n).reverse).reverse)

/-- Numeric value of a digit list. -/
def digitsVal (ds : List Char) : ℕ := ds.foldl (fun a c => 10 * a + (c.toNat - 48)) 0

/-- An exact rational modelling a finite Python float value: `num / den`,
    unnormalised, `den` positive by construction. -/
structure PyF where
  num : ℤ
  den : ℕ
  deriving DecidableEq, Repr

/-- Value comparison `a < b` on exact rationals (positive denominators). -/
def PyF.lt (a b : PyF) : Bool := a.num * (b.den : ℤ) < b.num * (a.den : ℤ)

/-- Whether the value is an integer. -/
def PyF.isInt (a : PyF) : Bool := a.num % (a.den : ℤ) = 0

/-- Truncation toward zero, Python `int(float)`. -/
def PyF.trunc (a : PyF) : ℤ :=
  if a.num < 0 then -((a.num.natAbs / a.den : ℕ) : ℤ) else ((a.num.natAbs / a.den : ℕ) : ℤ)

/-- Multiply by a natural constant. -/
def PyF.scaleMul (a : PyF) (k : ℕ) : PyF := ⟨a.num * k, a.den⟩

/-- Divide by a positive natural constant. -/
def PyF.scaleDiv (a : PyF) (k : ℕ) : PyF := ⟨a.num, a.den * k⟩

/-- Round `n / d` (both natural) to the nearest natural, ties to even — the
    rounding CPython applies when formatting, taken on the exact value. -/
def roundHE (n d : ℕ) : ℕ :=
  let q := n / d
  let r := n % d
  if 2 * r < d then q else if d < 2 * r then q + 1 else if q % 2 = 0 then q else q + 1

/-- Exponent part of a Python float literal (after the e/E). -/
def pyExp (base : PyF) (l : List Char) : Option PyF :=
  let sg : Bool × List Char :=
    match l with
    | '+' :: r => (false, r)
    | '-' :: r => (true, r)
    | _ => (false, l)
  let ed := sg.2.takeWhile Char.isDigit
  let rest := sg.2.dropWhile Char.isDigit
  if ed = [] ∨ ¬ rest = [] then none
  else some (if sg.1 then base.scaleDiv (10 ^ digitsVal ed) else base.scaleMul (10 ^ digitsVal ed))

/-- Python `float(s)`: strip whitespace, optional sign, digits with optional
    decimal point, optional exponent; `ValueError` is `none`.  Finite decimal
    literals only (see module comment). -/
def pyFloat (s : String) : Option PyF :=
  let l := trimList s.data
  let sg : Bool × List Char :=
    match l with
    | '+' :: r => (false, r)
    | '-' :: r => (true, r)
    | _ => (false, l)
  let ip := sg.2.takeWhile Char.isDigit
  let r1 := sg.2.dropWhile Char.isDigit
  let fpr : List Char × List Char :=
    match r1 with
    | '.' :: rr => (rr.takeWhile Char.isDigit, rr.dropWhile Char.isDigit)
    | _ => ([], r1)
  if ip = [] ∧ fpr.1 = [] then none
  else
    let m : ℕ := digitsVal (ip ++ fpr.1)
    let mant : PyF := ⟨if sg.1 then -(m : ℤ) else (m : ℤ), 10 ^ fpr.1.length⟩
    match fpr.2 with
    | [] => some mant
    | 'e' :: r3 => pyExp mant r3
    | 'E' :: r3 => pyExp mant r3
    | _ => none

/-- Two-digit zero-padded rendering of a value below 100. -/
def pad2 (n : ℕ) : String := if n < 10 then "0" ++ natStr n else natStr n

/-- Render a centi-count as a fixed two-decimal string. -/
def centiStr (c : ℕ) : String := natStr (c / 100) ++ "." ++ pad2 (c % 100)

/-- Python `f"{x:.2f}"`.  A negative value keeps its sign even when the
    rounded magnitude is zero, as CPython prints. -/
def fmtPlain2 (a : PyF) : String :=
  (if a.num < 0 then "-" else "") ++ centiStr (roundHE (a.num.natAbs * 100) a.den)

/-- Python `f"{x:.0f}"`. -/
def fmtPlain0 (a : PyF) : String :=
  (if a.num < 0 then "-" else "") ++ natStr (roundHE a.num.natAbs a.den)

/-- Python `f"{x:,.2f}"`: thousands-grouped with two decimals. -/
def fmtGroup2 (a : PyF) : String :=
  let c := roundHE (a.num.natAbs * 100) a.den
  (if a.num < 0 then "-" else "") ++ groupNat (c / 100) ++ "." ++ pad2 (c % 100)

/-- Python `f"{int(num):,}"` applied to an integer-valued float. -/
def fmtGroupIntOf (a : PyF) : String :=
  (if a.num < 0 then "-" else "") ++ groupNat (a.num.natAbs / a.den)

/-- Leap year test of the proleptic Gregorian calendar (Python datetime). -/
def isLeapYear (y : ℕ) : Bool := (y % 4 = 0 && ¬ y % 100 = 0) || y % 400 = 0

/-- Days in a month, Python `calendar`/`datetime` rules. -/
def daysInMonth (y m : ℕ) : ℕ :=
  match m with
  | 1 => 31 | 2 => if isLeapYear y then 29 else 28 | 3 => 31 | 4 => 30
  | 5 => 31 | 6 => 30 | 7 => 31 | 8 => 31 | 9 => 30 | 10 => 31
  | 11 => 30 | 12 => 31 | _ => 0

/-- Days in year `y` before the first of month `m`. -/
def daysBeforeMonth (y m : ℕ) : ℕ :=
  (match m with
   | 1 => 0 | 2 => 31 | 3 => 59 | 4 => 90 | 5 => 120 | 6 => 151 | 7 => 181
   | 8 => 212 | 9 => 243 | 10 => 273 | 11 => 304 | _ => 334)
  + (if isLeapYear y ∧ 2 < m then 1 else 0)

/-- Day count of a proleptic Gregorian date from 0001-01-01. -/
def dateToDays (y m d : ℕ) : ℕ :=
  365 * (y - 1) + (y - 1) / 4 - (y - 1) / 100 + (y - 1) / 400 + daysBeforeMonth y m + (d - 1)

/-- Microseconds of a date-time from the epoch 0001-01-01 00:00:00. -/
def tsMicros (y m d hh mm ss us : ℕ) : ℕ :=
  ((((dateToDays y m d * 24 + hh) * 60 + mm) * 60 + ss) * 1000000) + us

/-- Parse a timestamp against CPython
    `datetime.strptime(s, "%Y-%m-%d %H:%M:%S:%f")`, returning microseconds
    from a fixed epoch.  Field syntax follows the `_strptime` regular
    expressions (`%Y` exactly four digits; `%m`, `%d`, `%H`, `%M`, `%S` one
    or two digits in range, where the range checks of the regex and of the
    `datetime` constructor are combined; `%f` one to six digits, zero-padded
    on the right to microseconds; the format-string blank matches one or more
    whitespace characters; the whole input must be consumed).  Any failure —
    regex mismatch or constructor `ValueError` — is `none`, matching the
    caller's blanket exception handler. -/
def parseTs (s : String) : Option ℕ :=
  let l := s.data
  let yd := l.takeWhile Char.isDigit
  let r1 := l.dropWhile Char.isDigit
  if ¬ yd.length = 4 then none
  else
    let y := digitsVal yd
    match r1 with
    | '-' :: r2 =>
      let md := r2.takeWhile Char.isDigit
      let r3 := r2.dropWhile Char.isDigit
      let mo := digitsVal md
      if ¬ ((md.length = 1 ∨ md.length = 2) ∧ 1 ≤ mo ∧ mo ≤ 12) then none
      else
        match r3 with
        | '-' :: r4 =>
          let dd := r4.takeWhile Char.isDigit
          let r5 := r4.dropWhile Char.isDigit
          let dv := digitsVal dd
          if ¬ ((dd.length = 1 ∨ dd.length = 2) ∧ 1 ≤ dv) then none
          else
            let w := r5.takeWhile Char.isWhitespace
            let r6 := r5.dropWhile Char.isWhitespace
            if w = [] then none
            else
              let hd := r6.takeWhile Char.isDigit
              let r7 := r6.dropWhile Char.isDigit
              let hv := digitsVal hd
              if ¬ ((hd.length = 1 ∨ hd.length = 2) ∧ hv ≤ 23) then none
              else
                match r7 with
                | ':' :: r8 =>
                  let mnd := r8.takeWhile Char.isDigit
                  let r9 := r8.dropWhile Char.isDigit
                  let mnv := digitsVal mnd
                  if ¬ ((mnd.length = 1 ∨ mnd.length = 2) ∧ mnv ≤ 59) then none
                  else
                    match r9 with
                    | ':' :: r10 =>
                      let sd := r10.takeWhile Char.isDigit
                      let r11 := r10.dropWhile Char.isDigit
                      let sv := digitsVal sd
                      if ¬ ((sd.length = 1 ∨ sd.length = 2) ∧ sv ≤ 59) then none
                      else
                        match r11 with
                        | ':' :: r12 =>
                          let fd := r12.takeWhile Char.isDigit
                          let r13 := r12.dropWhile Char.isDigit
                          if ¬ (1 ≤ fd.length ∧ fd.length ≤ 6 ∧ r13 = []) then none
                          else if ¬ (1 ≤ y ∧ dv ≤ daysInMonth y mo) then none
                          else
                            some (tsMicros y mo dv hv mnv sv
                                    (digitsVal fd * 10 ^ (6 - fd.length)))
                        | _ => none
                    | _ => none
                | _ => none
        | _ => none
    | _ => none

/-- Render a signed microsecond difference as Python renders
    `f"{(end - start).total_seconds():.2f}"` (negative sign kept even when
    the magnitude rounds to zero). -/
def fmtMicros2 (d : ℤ) : String :=
  (if d < 0 then "-" else "") ++ centiStr (roundHE d.natAbs 10000)

/-- ResultParser._calculate_duration: sentinel on a sentinel input, the
    rendered second difference when both timestamps parse, and sentinel on
    any parse failure (the blanket `except`). -/
def calcDuration (startStr endStr : String) : String :=
  if startStr = "N/A" ∨ endStr = "N/A" then "N/A"
  else
    match parseTs startStr, parseTs endStr with
    | some a, some b => fmtMicros2 ((b : ℤ) - (a : ℤ))
    | _, _ => "N/A"

/-- Capture of `\s*(.+)` after a label match, with the backtracking of the
    greedy `\s*` against the one-or-more non-newline capture: if any
    non-whitespace char follows the whitespace run, the capture is the rest
    of that line; otherwise the capture is the last non-newline whitespace
    char of the run, if any. -/
def capAfterLabel (tail : List Char) : Option (List Char) :=
  let w := tail.takeWhile Char.isWhitespace
  let r := tail.dropWhile Char.isWhitespace
  match r with
  | _ :: _ => some (r.takeWhile (fun c => ¬ c = '\n'))
  | [] =>
    match (w.filter (fun c => ¬ c = '\n')).reverse with
    | [] => none
    | c :: _ => some [c]

/-- Leftmost-first scan of `re.search(label + "\\s*(.+)", content)`: try each
    occurrence of the literal label in order, completing the capture when
    possible. -/
def labeledGo (label : List Char) : List Char → Option (List Char)
  | [] => none
  | c :: rest =>
    if prefOf label (c :: rest) then
      match capAfterLabel ((c :: rest).drop label.length) with
      | some g => some g
      | none => labeledGo label rest
    else labeledGo label rest

/-- ResultParser.extract_value for the patterns of shape `Label:\s*(.+)`:
    the stripped capture, or the sentinel when the search fails. -/
def extractLabeled (content label : String) : String :=
  match labeledGo label.data content.data with
  | some g => String.mk (trimList g)
  | none => "N/A"

/-- ResultParser.extract_value with pattern `^(\d+)`: leading digits of the
    whole string, or the sentinel. -/
def extractLeadingInt (s : String) : String :=
  match s.data.takeWhile Char.isDigit with
  | [] => "N/A"
  | ds => String.mk ds

/-- Scan for `TPS:\s*(\d+)`: after each occurrence of the label and the
    whitespace run there must be at least one digit. -/
def tpsFieldGo : List Char → Option (List Char)
  | [] => none
  | c :: rest =>
    if prefOf ("TPS:".data) (c :: rest) then
      match ((c :: rest).drop 4).dropWhile Char.isWhitespace |>.takeWhile Char.isDigit with
      | [] => tpsFieldGo rest
      | ds => some ds
    else tpsFieldGo rest

/-- ResultParser.extract_value with pattern `TPS:\s*(\d+)`. -/
def extractTpsField (s : String) : String :=
  match tpsFieldGo s.data with
  | some ds => String.mk ds
  | none => "N/A"

/-- Capture of `([0-9.]+\s*(?:bytes|KB|MB))` at a position: a nonempty run
    of digits and dots, optional whitespace, then one of the unit literals
    tried in the alternation order. -/
def payloadCap (tail : List Char) : Option (List Char) :=
  let ds := tail.takeWhile (fun c => c.isDigit || c = '.')
  let r1 := tail.dropWhile (fun c => c.isDigit || c = '.')
  if ds = [] then none
  else
    let w := r1.takeWhile Char.isWhitespace
    let r2 := r1.dropWhile Char.isWhitespace
    if prefOf ("bytes".data) r2 then some (ds ++ w ++ "bytes".data)
    else if prefOf ("KB".data) r2 then some (ds ++ w ++ "KB".data)
    else if prefOf ("MB".data) r2 then some (ds ++ w ++ "MB".data)
    else none

/-- Scan for `Payload:\s*([0-9.]+\s*(?:bytes|KB|MB))`. -/
def payloadGo : List Char → Option (List Char)
  | [] => none
  | c :: rest =>
    if prefOf ("Payload:".data) (c :: rest) then
      match payloadCap (((c :: rest).drop 8).dropWhile Char.isWhitespace) with
      | some g => some g
      | none => payloadGo rest
    else payloadGo rest

/-- ResultParser.extract_value with the payload pattern. -/
def extractPayloadField (s : String) : String :=
  match payloadGo s.data with
  | some g => String.mk g
  | none => "N/A"

/-- Scan for `Duration:\s*(\d+)s`: digits followed by a literal `s`. -/
def durationFieldGo : List Char → Option (List Char)
  | [] => none
  | c :: rest =>
    if prefOf ("Duration:".data) (c :: rest) then
      let t := ((c :: rest).drop 9).dropWhile Char.isWhitespace
      let ds := t.takeWhile Char.isDigit
      let r := t.dropWhile Char.isDigit
      if ¬ ds = [] && prefOf ("s".data) r then some ds else durationFieldGo rest
    else durationFieldGo rest

/-- ResultParser.extract_value with pattern `Duration:\s*(\d+)s`. -/
def extractDurationField (s : String) : String :=
  match durationFieldGo s.data with
  | some ds => String.mk ds
  | none => "N/A"

/-- Lazy capture scan of `\((.+?)\)` from one opening parenthesis: collect
    non-newline chars until the first closing parenthesis that leaves a
    nonempty capture. -/
def parenClose (acc : List Char) : List Char → Option (List Char)
  | [] => none
  | c :: t =>
    if c = ')' ∧ ¬ acc = [] then some acc.reverse
    else if c = '\n' then none
    else parenClose (c :: acc) t

/-- Leftmost-first scan of `re.search(r"\((.+?)\)", s)`. -/
def parenGo : List Char → Option (List Char)
  | [] => none
  | c :: rest =>
    if c = '(' then
      match parenClose [] rest with
      | some g => some g
      | none => parenGo rest
    else parenGo rest

/-- The throughput capture of `_parse_producer_metrics`: the parenthesised
    sub-expression of the full line, unstripped, or the sentinel. -/
def findParen (s : String) : Option String :=
  match parenGo s.data with
  | some g => some (String.mk g)
  | none => none

/-- ResultParser.extract_section: the stripped line after the first line
    containing the header, or the empty string when no such line with a
    successor exists. -/
def sectionGo (header : String) : List String → String
  | [] => ""
  | [_] => ""
  | l :: next :: rest =>
    if strContains l header then pyStrip next else sectionGo header (next :: rest)

/-- ResultParser.extract_section on a whole document. -/
def extractSection (content header : String) : String :=
  sectionGo header (pySplit '\n' content)

/-- ResultParser._format_latency: integral values drop the decimals,
    fractional values keep two; unparseable text is echoed. -/
def formatLatency (v : String) : String :=
  if v = "N/A" then v
  else
    match pyFloat v with
    | none => v
    | some q => if q.isInt then intStr q.trunc else fmtPlain2 q

/-- ResultParser._format_number: thousands separator, two decimals for
    fractional values; unparseable text is echoed (bare `except`). -/
def formatNumber (v : String) : String :=
  if v = "N/A" then v
  else
    match pyFloat v with
    | none => v
    | some q => if q.isInt then fmtGroupIntOf q else fmtGroup2 q

/-- ResultParser._format_mb_size: MB below 1024, then GB, then TB;
    unparseable text is echoed. -/
def formatMbSize (v : String) : String :=
  if v = "N/A" then v
  else
    match pyFloat v with
    | none => v
    | some mb =>
      if mb.lt ⟨1024, 1⟩ then fmtGroup2 mb ++ " MB"
      else if mb.lt ⟨1024 * 1024, 1⟩ then fmtPlain2 (mb.scaleDiv 1024) ++ " GB"
      else fmtPlain2 (mb.scaleDiv (1024 * 1024)) ++ " TB"

/-- `parts[i].strip() if len(parts) > i else "N/A"`, the guarded positional
    access used throughout `_parse_consumer_metrics`. -/
def consumerRaw (parts : List String) (i : ℕ) : String :=
  if i < parts.length then pyStrip (parts.getD i "") else "N/A"

/-- Consumer start time: position 0 stripped. -/
def consumerStartF (parts : List String) : String := consumerRaw parts 0

/-- Consumer end time: position 1 stripped (a worker id in the
    detailed-stats layout is stored as-is). -/
def consumerEndF (parts : List String) : String := consumerRaw parts 1

/-- Consumer data volume (position 2): bytes below 0.001 MB, KB below 1 MB,
    otherwise `_format_mb_size`; a `ValueError` echoes the raw text. -/
def consumerMbF (parts : List String) : String :=
  let raw := consumerRaw parts 2
  if raw = "N/A" then "N/A"
  else
    match pyFloat raw with
    | none => raw
    | some v =>
      if v.lt ⟨1, 1000⟩ then fmtPlain0 (v.scaleMul (1024 * 1024)) ++ " bytes"
      else if v.lt ⟨1, 1⟩ then fmtPlain2 (v.scaleMul 1024) ++ " KB"
      else formatMbSize raw

/-- Consumer MB/s (position 3): KB/s below 0.01, otherwise
    `_format_number`; a `ValueError` echoes the raw text. -/
def consumerMbpsF (parts : List String) : String :=
  let raw := consumerRaw parts 3
  if raw = "N/A" then "N/A"
  else
    match pyFloat raw with
    | none => raw
    | some v =>
      if v.lt ⟨1, 100⟩ then fmtPlain2 (v.scaleMul 1024) ++ " KB/s"
      else formatNumber raw

/-- Consumer message count (position 4) through `_format_number`. -/
def consumerMsgsF (parts : List String) : String := formatNumber (consumerRaw parts 4)

/-- Consumer msg/s (position 5): two decimals below 1, otherwise truncated
    to an integer; a `ValueError` yields the sentinel. -/
def consumerMsgpsF (parts : List String) : String :=
  let raw := consumerRaw parts 5
  if raw = "N/A" then "N/A"
  else
    match pyFloat raw with
    | none => "N/A"
    | some v => if v.lt ⟨1, 1⟩ then fmtPlain2 v else intStr v.trunc

/-- Consumer rebalance time (position 6) through `_format_number`. -/
def consumerRebalanceF (parts : List String) : String := formatNumber (consumerRaw parts 6)

/-- Consumer fetch time (position 7) through `_format_number`. -/
def consumerFetchMsF (parts : List String) : String := formatNumber (consumerRaw parts 7)

/-- Consumer fetch MB/s (position 8), same rules as position 3. -/
def consumerFetchMbpsF (parts : List String) : String :=
  let raw := consumerRaw parts 8
  if raw = "N/A" then "N/A"
  else
    match pyFloat raw with
    | none => raw
    | some v =>
      if v.lt ⟨1, 100⟩ then fmtPlain2 (v.scaleMul 1024) ++ " KB/s"
      else formatNumber raw

/-- Consumer fetch msg/s (position 9), same rules as position 5. -/
def consumerFetchMsgpsF (parts : List String) : String :=
  let raw := consumerRaw parts 9
  if raw = "N/A" then "N/A"
  else
    match pyFloat raw with
    | none => "N/A"
    | some v => if v.lt ⟨1, 1⟩ then fmtPlain2 v else intStr v.trunc

/-- The consumer metrics dict for an empty consumer line. -/
def consumerDefaults : List (String × String) :=
  [("consumer_start", "N/A"), ("consumer_end", "N/A"), ("consumer_duration", "N/A"),
   ("consumer_mb", "N/A"), ("consumer_mbps", "N/A"), ("consumer_msgs", "N/A"),
   ("consumer_msgps", "N/A"), ("consumer_rebalance_ms", "N/A"),
   ("consumer_fetch_ms", "N/A"), ("consumer_fetch_mbps", "N/A"),
   ("consumer_fetch_msgps", "N/A")]

/-- The consumer metrics dict built from the comma-split parts, in the
    insertion order of the source. -/
def consumerFields (parts : List String) : List (String × String) :=
  [("consumer_start", consumerStartF parts),
   ("consumer_end", consumerEndF parts),
   ("consumer_duration", calcDuration (consumerStartF parts) (consumerEndF parts)),
   ("consumer_mb", consumerMbF parts),
   ("consumer_mbps", consumerMbpsF parts),
   ("consumer_msgs", consumerMsgsF parts),
   ("consumer_msgps", consumerMsgpsF parts),
   ("consumer_rebalance_ms", consumerRebalanceF parts),
   ("consumer_fetch_ms", consumerFetchMsF parts),
   ("consumer_fetch_mbps", consumerFetchMbpsF parts),
   ("consumer_fetch_msgps", consumerFetchMsgpsF parts)]

/-- ResultParser._parse_consumer_metrics.  Total: every numeric failure is
    handled inside the field functions. -/
def parseConsumerMetrics (line : String) : List (String × String) :=
  if line = "" then consumerDefaults else consumerFields (pySplit ',' line)

/-- The producer metrics dict for an empty producer line. -/
def producerDefaults : List (String × String) :=
  [("records", "N/A"), ("tps", "N/A"), ("mbps", "N/A"), ("avg_ms", "N/A"),
   ("max_ms", "N/A"), ("p50", "N/A"), ("p95", "N/A"), ("p99", "N/A"),
   ("p999", "N/A")]

/-- The two unguarded statements of `_parse_producer_metrics`:
    `parts[1].strip().split()[0]` raises IndexError on a blank field, and
    `int(float(tps_raw))` raises ValueError on a non-numeric token.  Both
    uncaught exceptions are modelled as `Except.error`. -/
def producerTps (parts : List String) : Except String String :=
  if 1 < parts.length then
    match wsTokens (pyStrip (parts.getD 1 "")) with
    | [] => Except.error "IndexError: list index out of range"
    | t :: _ =>
      if t = "N/A" then Except.ok "N/A"
      else
        match pyFloat t with
        | none => Except.error "ValueError: could not convert string to float"
        | some q => Except.ok (intStr q.trunc)
  else Except.ok "N/A"

/-- Producer records field: position 0 stripped, suffix removed. -/
def producerRecordsF (parts : List String) : String :=
  pyReplace (pyStrip (parts.getD 0 "")) " records sent" ""

/-- Producer avg latency: position 2 stripped, suffix removed, smart
    formatted. -/
def producerAvgF (parts : List String) : String :=
  if 2 < parts.length then
    formatLatency (pyReplace (pyStrip (parts.getD 2 "")) " ms avg latency" "")
  else "N/A"

/-- Producer max latency: position 3 stripped, suffix removed, smart
    formatted. -/
def producerMaxF (parts : List String) : String :=
  if 3 < parts.length then
    formatLatency (pyReplace (pyStrip (parts.getD 3 "")) " ms max latency" "")
  else "N/A"

/-- Producer p50: position 4 stripped, suffix removed. -/
def producerP50F (parts : List String) : String :=
  if 4 < parts.length then pyReplace (pyStrip (parts.getD 4 "")) " ms 50th" "" else "N/A"

/-- Producer p95: position 5 stripped, suffix removed. -/
def producerP95F (parts : List String) : String :=
  if 5 < parts.length then pyReplace (pyStrip (parts.getD 5 "")) " ms 95th" "" else "N/A"

/-- Producer p99: position 6 stripped, suffix removed. -/
def producerP99F (parts : List String) : String :=
  if 6 < parts.length then pyReplace (pyStrip (parts.getD 6 "")) " ms 99th" "" else "N/A"

/-- Producer p99.9: position 7 stripped, suffix removed, then every dot
    removed (the historical formatting quirk). -/
def producerP999F (parts : List String) : String :=
  if 7 < parts.length then
    pyReplace (pyReplace (pyStrip (parts.getD 7 "")) " ms 99.9th" "") "." ""
  else "N/A"

/-- Producer mbps: the parenthesised capture of the full line, unstripped. -/
def producerMbpsF (line : String) : String :=
  match findParen line with
  | some g => g
  | none => "N/A"

/-- The producer metrics dict built from the line and its comma-split
    parts, in the insertion order of the source. -/
def producerFields (line : String) (parts : List String) (tps : String) :
    List (String × String) :=
  [("records", producerRecordsF parts), ("tps", tps), ("mbps", producerMbpsF line),
   ("avg_ms", producerAvgF parts), ("max_ms", producerMaxF parts),
   ("p50", producerP50F parts), ("p95", producerP95F parts),
   ("p99", producerP99F parts), ("p999", producerP999F parts)]

/-- ResultParser._parse_producer_metrics: defaults on an empty line,
    otherwise the field dict — unless the tps extraction raises. -/
def parseProducerMetrics (line : String) : Except String (List (String × String)) :=
  if line = "" then Except.ok producerDefaults
  else
    match producerTps (pySplit ',' line) with
    | Except.error e => Except.error e
    | Except.ok tps => Except.ok (producerFields line (pySplit ',' line) tps)

/-- ResultParser.parse_summary: the full model as an insertion-ordered
    association list; an uncaught exception from the producer line
    propagates as `Except.error`. -/
def parseSummary (content : String) : Except String (List (String × String)) :=
  let recordsLine := extractLabeled content "Records:"
  match parseProducerMetrics (extractSection content "Producer Summary:") with
  | Except.error e => Except.error e
  | Except.ok pm =>
    Except.ok
      ([("topic", extractLabeled content "Topic:"),
        ("bootstrap", extractLabeled content "Bootstrap:"),
        ("records_line", recordsLine),
        ("producer_config", extractLabeled content "Producer:"),
        ("num_records", extractLeadingInt recordsLine),
        ("target_tps", extractTpsField recordsLine),
        ("payload_size", extractPayloadField recordsLine),
        ("duration", extractDurationField recordsLine)]
       ++ pm ++ parseConsumerMetrics (extractSection content "Consumer Summary:"))

/-- Dict lookup, Python `d.get(k)`. -/
def mget : List (String × String) → String → Option String
  | [], _ => none
  | (k, v) :: rest, key => if k = key then some v else mget rest key

/-- Dict lookup with default, Python `d.get(k, default)`. -/
def mgetD (m : List (String × String)) (k d : String) : String := (mget m k).getD d

/-- Field access through the `Except` wrapper: `none` when the parse
    raised or the key is absent. -/
def modelField (r : Except String (List (String × String))) (k : String) : Option String :=
  match r with
  | Except.ok m => mget m k
  | Except.error _ => none

/-- The full ordered key set of the model produced by `parse_summary`. -/
def modelKeys : List String :=
  ["topic", "bootstrap", "records_line", "producer_config", "num_records",
   "target_tps", "payload_size", "duration",
   "records", "tps", "mbps", "avg_ms", "max_ms", "p50", "p95", "p99", "p999",
   "consumer_start", "consumer_end", "consumer_duration", "consumer_mb",
   "consumer_mbps", "consumer_msgs", "consumer_msgps", "consumer_rebalance_ms",
   "consumer_fetch_ms", "consumer_fetch_mbps", "consumer_fetch_msgps"]

/-- The 58-character double-line rule of the report banner. -/
def eqRule : String := String.mk (List.replicate 58 '═')

/-- The 58-character heavy rule separating report sections. -/
def hrRule : String := String.mk (List.replicate 58 '━')

/-- The configuration topic line of the text report. -/
def cfgTopicLine (m : List (String × String)) : String :=
  "Topic:        " ++ mgetD m "topic" "N/A" ++ "\n"

/-- The configuration bootstrap line. -/
def cfgBootstrapLine (m : List (String × String)) : String :=
  "Bootstrap:    " ++ mgetD m "bootstrap" "N/A" ++ "\n"

/-- The configuration records line. -/
def cfgRecordsLine (m : List (String × String)) : String :=
  "Records:      " ++ mgetD m "records_line" "N/A" ++ "\n"

/-- The producer TPS line. -/
def prodTpsLine (m : List (String × String)) : String :=
  "TPS:          " ++ mgetD m "tps" "N/A" ++ " msg/s ⭐\n"

/-- The producer throughput line. -/
def prodThroughputLine (m : List (String × String)) : String :=
  "Throughput:   " ++ mgetD m "mbps" "N/A" ++ "\n"

/-- The producer records-sent line. -/
def prodRecordsLine (m : List (String × String)) : String :=
  "Records Sent: " ++ mgetD m "records" "N/A" ++ "\n"

/-- The producer average latency line. -/
def prodAvgLine (m : List (String × String)) : String :=
  "Latency Avg:  " ++ mgetD m "avg_ms" "N/A" ++ " ms\n"

/-- The producer max latency line. -/
def prodMaxLine (m : List (String × String)) : String :=
  "Latency Max:  " ++ mgetD m "max_ms" "N/A" ++ " ms\n"

/-- The producer percentile line. -/
def prodPctLine (m : List (String × String)) : String :=
  "P50/P95/P99:  " ++ mgetD m "p50" "N/A" ++ " / " ++ mgetD m "p95" "N/A" ++
    " / " ++ mgetD m "p99" "N/A" ++ " ms\n"

/-- The producer p99.9 line. -/
def prodP999Line (m : List (String × String)) : String :=
  "P99.9:        " ++ mgetD m "p999" "N/A" ++ " ms\n"

/-- The consumer window line. -/
def consWindowLine (m : List (String × String)) : String :=
  "Window:       " ++ mgetD m "consumer_start" "N/A" ++ " → " ++
    mgetD m "consumer_end" "N/A" ++ "\n"

/-- The consumer duration line. -/
def consDurationLine (m : List (String × String)) : String :=
  "Duration:     " ++ mgetD m "consumer_duration" "N/A" ++ "s ⏱️\n"

/-- The consumer consumed line. -/
def consConsumedLine (m : List (String × String)) : String :=
  "Consumed:     " ++ mgetD m "consumer_msgs" "N/A" ++ " msgs (" ++
    mgetD m "consumer_mb" "N/A" ++ " MB)\n"

/-- The consumer TPS line. -/
def consTpsLine (m : List (String × String)) : String :=
  "TPS:          " ++ mgetD m "consumer_msgps" "N/A" ++ " msg/s ⭐\n"

/-- The consumer throughput line. -/
def consThroughputLine (m : List (String × String)) : String :=
  "Throughput:   " ++ mgetD m "consumer_mbps" "N/A" ++ " MB/s\n"

/-- The fetch time line. -/
def consFetchTimeLine (m : List (String × String)) : String :=
  "  Time:       " ++ mgetD m "consumer_fetch_ms" "N/A" ++ " ms\n"

/-- The fetch rate line. -/
def consFetchRateLine (m : List (String × String)) : String :=
  "  Rate:       " ++ mgetD m "consumer_fetch_mbps" "N/A" ++ " MB/s | " ++
    mgetD m "consumer_fetch_msgps" "N/A" ++ " msg/s\n"

/-- The rebalance line. -/
def consRebalanceLine (m : List (String × String)) : String :=
  "  Rebalance:  " ++ mgetD m "consumer_rebalance_ms" "N/A" ++ " ms\n"

/-- The unconditional part of TextReporter.generate: banner, configuration
    block and producer block, concatenated right-nested so each line is an
    atom of the append tree.  The concatenation equals the f-string of the
    source verbatim. -/
def textBase (m : List (String × String)) : String :=
  ("\n╔" ++ eqRule ++ "╗\n║       Kafka Performance Report (CLI)                     ║\n╚" ++ eqRule ++ "╝\n\n") ++
  ("📊 Test Configuration" ++
  (("\n" ++ hrRule ++ "\n") ++
  (cfgTopicLine m ++ (cfgBootstrapLine m ++ (cfgRecordsLine m ++
  ("\n" ++ ("🚀 Producer Results (TPS is most important)" ++
  (("\n" ++ hrRule ++ "\n") ++
  (prodTpsLine m ++ (prodThroughputLine m ++ (prodRecordsLine m ++
  (prodAvgLine m ++ (prodMaxLine m ++ (prodPctLine m ++ prodP999Line m))))))))))))))

/-- The conditional consumer part of TextReporter.generate, appended only
    when the consumer message count is not the sentinel. -/
def textConsumer (m : List (String × String)) : String :=
  "\n" ++
  ("📥 Consumer Results" ++
  (("\n" ++ hrRule ++ "\n") ++
  (consWindowLine m ++ (consDurationLine m ++ (consConsumedLine m ++
  (consTpsLine m ++ (consThroughputLine m ++
  ("\nFetch Stats:\n" ++
  (consFetchTimeLine m ++ (consFetchRateLine m ++ consRebalanceLine m))))))))))

/-- TextReporter.generate: the consumer block is appended exactly when
    metrics.get("consumer_msgs") differs from the sentinel (an absent key —
    Python None — also differs). -/
def generate (m : List (String × String)) : String :=
  if mget m "consumer_msgs" = some "N/A" then textBase m
  else textBase m ++ textConsumer m

/-- `p` occurs as a contiguous substring of `s`. -/
def substrOf (p s : String) : Prop := ∃ u v, s = u ++ (p ++ v)

/-- String append acts on the underlying char lists. -/
theorem strDataAppend (a b : String) : (a ++ b).data = a.data ++ b.data := rfl

/-- Length of an append. -/
theorem strLenAppend (a b : String) : (a ++ b).length = a.length + b.length :=
  List.length_append a.data b.data

/-- String append is associative. -/
theorem strAssoc (a b c : String) : a ++ b ++ c = a ++ (b ++ c) :=
  congrArg String.mk (List.append_assoc a.data b.data c.data)

/-- Appending the empty string on the right. -/
theorem strAppendEmpty (a : String) : a ++ "" = a :=
  congrArg String.mk (List.append_nil a.data)

/-- A substring at an explicit split point. -/
theorem substrAt (u p v : String) : substrOf p (u ++ (p ++ v)) := ⟨u, v, rfl⟩

/-- A prefix is a substring. -/
theorem substrHead (p v : String) : substrOf p (p ++ v) := ⟨"", v, rfl⟩

/-- A suffix is a substring. -/
theorem substrTail (u p : String) : substrOf p (u ++ p) :=
  ⟨u, "", by rw [strAppendEmpty]⟩

/-- Substrings survive prepending. -/
theorem substrCons (a : String) {p s : String} (h : substrOf p s) : substrOf p (a ++ s) := by
  obtain ⟨u, v, rfl⟩ := h
  exact ⟨a ++ u, v, by rw [strAssoc]⟩

/-- Substrings survive appending. -/
theorem substrAppR {p s : String} (t : String) (h : substrOf p s) : substrOf p (s ++ t) := by
  obtain ⟨u, v, rfl⟩ := h
  exact ⟨u, v ++ t, by rw [strAssoc, strAssoc]⟩

/-- Lookup skips an alien prefix dict. -/
theorem mget_append_of_none (l₁ l₂ : List (String × String)) (k : String)
    (h : mget l₁ k = none) : mget (l₁ ++ l₂) k = mget l₂ k := by
  induction l₁ with
  | nil => rfl
  | cons a t ih =>
    by_cases hab : a.1 = k
    · simp [mget, hab] at h
    · simp [mget, hab] at h ⊢
      exact ih h

/-- A key listed among the dict keys is found. -/
theorem mget_isSome_of_mem (l : List (String × String)) (k : String)
    (h : k ∈ l.map Prod.fst) : (mget l k).isSome = true := by
  induction l with
  | nil => simp at h
  | cons a t ih =>
    rw [List.map_cons] at h
    by_cases hab : a.1 = k
    · simp [mget, hab]
    · simp [mget, hab]
      rcases List.mem_cons.mp h with h | h
      · exact absurd h.symm hab
      · exact ih h

/-- A document none of whose non-final lines contains the header yields the
    empty section. -/
theorem sectionGo_empty (header : String) (ls : List String)
    (h : ∀ l ∈ ls.dropLast, strContains l header = false) : sectionGo header ls = "" := by
  induction ls with
  | nil => rfl
  | cons a t ih =>
    cases t with
    | nil => rfl
    | cons b r =>
      have ha : strContains a header = false :=
        h a (List.mem_cons_self a ((b :: r).dropLast))
      have hrest : ∀ l ∈ (b :: r).dropLast, strContains l header = false :=
        fun l hl => h l (List.mem_cons_of_mem a hl)
      have hstep : sectionGo header (a :: b :: r) = sectionGo header (b :: r) := by
        show (if strContains a header = true then pyStrip b else sectionGo header (b :: r)) = _
        rw [ha]
        simp
      rw [hstep]
      exact ih hrest

/-- Duration is sentinel whenever the end timestamp does not parse. -/
theorem calcDuration_noneR (s e : String) (h : parseTs e = none) :
    calcDuration s e = "N/A" := by
  unfold calcDuration
  by_cases hor : s = "N/A" ∨ e = "N/A"
  · rw [if_pos hor]
  · rw [if_neg hor, h]
    cases hps : parseTs s <;> rfl

/-- Duration is sentinel whenever the start timestamp does not parse. -/
theorem calcDuration_noneL (s e : String) (h : parseTs s = none) :
    calcDuration s e = "N/A" := by
  unfold calcDuration
  by_cases hor : s = "N/A" ∨ e = "N/A"
  · rw [if_pos hor]
  · rw [if_neg hor, h]

/-- Duration of two parsed timestamps is the rendered difference. -/
theorem calcDuration_parsed (s e : String) (a b : ℕ)
    (ha : parseTs s = some a) (hb : parseTs e = some b) :
    calcDuration s e = fmtMicros2 ((b : ℤ) - (a : ℤ)) := by
  have hna : parseTs "N/A" = none := by decide
  have hs : ¬ s = "N/A" := by
    intro h
    rw [h, hna] at ha
    cases ha
  have he : ¬ e = "N/A" := by
    intro h
    rw [h, hna] at hb
    cases hb
  unfold calcDuration
  rw [if_neg (not_or.mpr ⟨hs, he⟩), ha, hb]

/-- A nonempty consumer line goes through the split-field functions. -/
theorem pcm_ne (line : String) (h : ¬ line = "") :
    parseConsumerMetrics line = consumerFields (pySplit ',' line) := by
  simp [parseConsumerMetrics, h]

/-- Field access into the consumer dict: end time. -/
theorem mget_cons_end (parts : List String) :
    mget (consumerFields parts) "consumer_end" = some (consumerEndF parts) := rfl

/-- Field access into the consumer dict: duration. -/
theorem mget_cons_duration (parts : List String) :
    mget (consumerFields parts) "consumer_duration"
      = some (calcDuration (consumerStartF parts) (consumerEndF parts)) := rfl

/-- Field access into the consumer dict: data volume. -/
theorem mget_cons_mb (parts : List String) :
    mget (consumerFields parts) "consumer_mb" = some (consumerMbF parts) := rfl

/-- Field access into the consumer dict: MB/s. -/
theorem mget_cons_mbps (parts : List String) :
    mget (consumerFields parts) "consumer_mbps" = some (consumerMbpsF parts) := rfl

/-- Field access into the consumer dict: msg/s. -/
theorem mget_cons_msgps (parts : List String) :
    mget (consumerFields parts) "consumer_msgps" = some (consumerMsgpsF parts) := rfl

/-- C1: the claim states that `parse_summary` never raises and degrades the
    tps field to the sentinel whenever the second comma-separated field of
    the producer summary line does not begin with a parseable number.  The
    code contradicts this: `str(int(float(tps_raw)))` on line 76 of
    src/lib/parser.py is not wrapped in any try/except, so a producer line
    whose second field is non-numeric raises an uncaught ValueError.  This
    theorem evaluates the embedded parser at such a document and shows the
    exception (modelled as `Except.error`) propagating out of
    `parse_summary`. -/
theorem c1_crash :
    parseSummary "Producer Summary:\n10 records sent, oops"
      = Except.error "ValueError: could not convert string to float" := rfl

/-- C2 counterexample: the claim says a present-but-malformed numeric field
    is replaced by the sentinel.  For the consumer line "a,b,xyz" the
    data-consumed field at position 2 is "xyz", which does not parse; the
    code echoes it through (`except ValueError: consumer_mb =
    consumer_mb_raw`), so the model holds "xyz", not "N/A". -/
theorem c2_cex :
    mget (parseConsumerMetrics "a,b,xyz") "consumer_mb" = some "xyz"
      ∧ ¬ mget (parseConsumerMetrics "a,b,xyz") "consumer_mb" = some "N/A" := by
  decide

/-- C2 amended: a malformed numeric consumer field at position 2 (and any
    field passed through `_format_number`) is echoed through verbatim, not
    replaced by the sentinel; only the messages-per-second fields degrade to
    the sentinel on a parse failure. -/
theorem c2_thm (line : String) (hne : ¬ line = "") :
    (∀ raw : String, consumerRaw (pySplit ',' line) 2 = raw → ¬ raw = "N/A" →
       pyFloat raw = none →
       mget (parseConsumerMetrics line) "consumer_mb" = some raw)
  ∧ (∀ v : String, ¬ v = "N/A" → pyFloat v = none → formatNumber v = v)
  ∧ (∀ raw : String, consumerRaw (pySplit ',' line) 5 = raw → ¬ raw = "N/A" →
       pyFloat raw = none →
       mget (parseConsumerMetrics line) "consumer_msgps" = some "N/A") := by
  refine ⟨?_, ?_, ?_⟩
  · intro raw hraw hna hf
    rw [pcm_ne line hne, mget_cons_mb]
    simp only [consumerMbF]
    rw [hraw, if_neg hna, hf]
  · intro v hv hf
    simp only [formatNumber]
    rw [if_neg hv, hf]
  · intro raw hraw hna hf
    rw [pcm_ne line hne, mget_cons_msgps]
    simp only [consumerMsgpsF]
    rw [hraw, if_neg hna, hf]

/-- C2 witness: the amended behaviour at the concrete consumer line
    "a,b,xyz,0.5,10,zz": the malformed position-2 field is echoed, the
    number formatter echoes malformed text, and the malformed position-5
    field becomes sentinel. -/
theorem c2_w :
    mget (parseConsumerMetrics "a,b,xyz,0.5,10,zz") "consumer_mb" = some "xyz"
  ∧ formatNumber "qq" = "qq"
  ∧ mget (parseConsumerMetrics "a,b,xyz,0.5,10,zz") "consumer_msgps" = some "N/A" := by
  have h := c2_thm "a,b,xyz,0.5,10,zz" (by decide)
  exact ⟨h.1 "xyz" (by decide) (by decide) (by decide),
         h.2.1 "qq" (by decide) (by decide),
         h.2.2 "zz" (by decide) (by decide) (by decide)⟩

/-- C3 counterexample: the claim says both the end-time field and the
    duration field are sentinel in the detailed-stats layout.  Duration is,
    but the end-time field stores the worker identifier verbatim
    (`end_time = parts[1].strip()`), so it is "worker-1", not "N/A". -/
theorem c3_cex :
    mget (parseConsumerMetrics
        "2026-02-03 15:01:00:000, worker-1, 0.50, 0.10, 1000, 100.0, 50, 20, 0.10, 100.0")
        "consumer_end" = some "worker-1"
  ∧ ¬ mget (parseConsumerMetrics
        "2026-02-03 15:01:00:000, worker-1, 0.50, 0.10, 1000, 100.0, 50, 20, 0.10, 100.0")
        "consumer_end" = some "N/A" := by
  decide

/-- C3 amended: in the detailed-stats layout (position 0 parses as a
    timestamp, position 1 does not), the duration field is sentinel, while
    the end-time field holds the stripped position-1 token verbatim. -/
theorem c3_thm (line : String) (hne : ¬ line = "")
    (_hlen : 1 < (pySplit ',' line).length)
    (_hstart : (parseTs (consumerRaw (pySplit ',' line) 0)).isSome = true)
    (he : parseTs (consumerRaw (pySplit ',' line) 1) = none) :
    mget (parseConsumerMetrics line) "consumer_duration" = some "N/A"
  ∧ mget (parseConsumerMetrics line) "consumer_end"
      = some (consumerRaw (pySplit ',' line) 1) := by
  constructor
  · rw [pcm_ne line hne, mget_cons_duration]
    have he2 : parseTs (consumerEndF (pySplit ',' line)) = none := he
    rw [calcDuration_noneR _ _ he2]
  · rw [pcm_ne line hne, mget_cons_end]
    rfl

/-- C3 witness: the amended behaviour at a concrete detailed-stats line. -/
theorem c3_w :
    mget (parseConsumerMetrics
        "2026-02-03 15:01:02:575, worker-7, 0.25, 0.05, 500, 50.0, 10, 4, 0.05, 50.0")
        "consumer_duration" = some "N/A"
  ∧ mget (parseConsumerMetrics
        "2026-02-03 15:01:02:575, worker-7, 0.25, 0.05, 500, 50.0, 10, 4, 0.05, 50.0")
        "consumer_end" = some "worker-7" := by
  have h := c3_thm
      "2026-02-03 15:01:02:575, worker-7, 0.25, 0.05, 500, 50.0, 10, 4, 0.05, 50.0"
      (by decide) (by decide) (by decide) (by decide)
  exact ⟨h.1, h.2⟩

/-- C4: the worked producer line parses to tps "833" (fractional rate
    truncated), avg latency "7", max latency "356", p999 "999" (internal
    dot removed), and data rate "0.85 MB/sec" (the parenthesised
    sub-expression of the full line). -/
theorem c4_thm :
    modelField (parseProducerMetrics "1000 records sent, 833.33 records/sec (0.85 MB/sec), 7.00 ms avg latency, 356.00 ms max latency, 5 ms 50th, 12 ms 95th, 45 ms 99th, 99.9 ms 99.9th") "tps" = some "833"
  ∧ modelField (parseProducerMetrics "1000 records sent, 833.33 records/sec (0.85 MB/sec), 7.00 ms avg latency, 356.00 ms max latency, 5 ms 50th, 12 ms 95th, 45 ms 99th, 99.9 ms 99.9th") "avg_ms" = some "7"
  ∧ modelField (parseProducerMetrics "1000 records sent, 833.33 records/sec (0.85 MB/sec), 7.00 ms avg latency, 356.00 ms max latency, 5 ms 50th, 12 ms 95th, 45 ms 99th, 99.9 ms 99.9th") "max_ms" = some "356"
  ∧ modelField (parseProducerMetrics "1000 records sent, 833.33 records/sec (0.85 MB/sec), 7.00 ms avg latency, 356.00 ms max latency, 5 ms 50th, 12 ms 95th, 45 ms 99th, 99.9 ms 99.9th") "p999" = some "999"
  ∧ modelField (parseProducerMetrics "1000 records sent, 833.33 records/sec (0.85 MB/sec), 7.00 ms avg latency, 356.00 ms max latency, 5 ms 50th, 12 ms 95th, 45 ms 99th, 99.9 ms 99.9th") "mbps" = some "0.85 MB/sec" := by
  decide

/-- C5: for any pair of timestamp strings, the duration field is the
    second difference rendered with two decimals (via `fmtMicros2`) when
    both parse against the fixed pattern, and is the sentinel — with no
    exception — whenever either side fails to parse (a missing side is the
    sentinel string, which never parses). -/
theorem c5_thm (s e : String) :
    (∀ a b : ℕ, parseTs s = some a → parseTs e = some b →
       calcDuration s e = fmtMicros2 ((b : ℤ) - (a : ℤ)))
  ∧ (parseTs s = none ∨ parseTs e = none → calcDuration s e = "N/A") := by
  constructor
  · intro a b ha hb
    exact calcDuration_parsed s e a b ha hb
  · intro h
    rcases h with h | h
    · exact calcDuration_noneL s e h
    · exact calcDuration_noneR s e h

/-- C5 witness: the concrete pair of the spec yields "10.50", and an
    unparseable start yields the sentinel. -/
theorem c5_w :
    calcDuration "2026-02-03 15:01:00:000" "2026-02-03 15:01:10:500" = "10.50"
  ∧ calcDuration "garbage" "2026-02-03 15:01:10:500" = "N/A" := by
  constructor
  · rw [(c5_thm "2026-02-03 15:01:00:000" "2026-02-03 15:01:10:500").1 _ _ rfl rfl]
    decide
  · exact (c5_thm "garbage" "2026-02-03 15:01:10:500").2 (Or.inl (by decide))

/-- C10: when both timestamps parse and the end is strictly earlier, the
    duration field is the negative difference rendered with two decimals —
    it starts with a minus sign and is not the sentinel; the code performs
    no ordering check. -/
theorem c10_thm (s e : String) (a b : ℕ)
    (ha : parseTs s = some a) (hb : parseTs e = some b) (hlt : b < a) :
    calcDuration s e = fmtMicros2 ((b : ℤ) - (a : ℤ))
  ∧ (calcDuration s e).data.head? = some '-'
  ∧ ¬ calcDuration s e = "N/A" := by
  have hmain := calcDuration_parsed s e a b ha hb
  have hneg : ((b : ℤ) - (a : ℤ)) < 0 := by
    have hba : (b : ℤ) < (a : ℤ) := Int.ofNat_lt.mpr hlt
    omega
  have hhead : (fmtMicros2 ((b : ℤ) - (a : ℤ))).data.head? = some '-' := by
    unfold fmtMicros2
    rw [if_pos hneg]
    rfl
  refine ⟨hmain, by rw [hmain]; exact hhead, ?_⟩
  intro hNA
  have h3 := hhead
  rw [← hmain, hNA] at h3
  exact absurd h3 (by decide)

/-- C10 witness: an end five seconds before the start renders "-5.00". -/
theorem c10_w :
    calcDuration "2026-02-03 15:01:10:000" "2026-02-03 15:01:05:000" = "-5.00"
  ∧ ¬ calcDuration "2026-02-03 15:01:10:000" "2026-02-03 15:01:05:000" = "N/A" := by
  have h := c10_thm "2026-02-03 15:01:10:000" "2026-02-03 15:01:05:000" _ _ rfl rfl
      (by decide)
  refine ⟨?_, h.2.2⟩
  rw [h.1]
  decide

/-- C6: when no line of the document other than possibly the last contains
    the header "Producer Summary:", the section is empty and all nine
    producer fields of the parsed model are the sentinel (and the parse
    returns normally). -/
theorem c6_thm (content : String)
    (h : ∀ l ∈ (pySplit '\n' content).dropLast,
       strContains l "Producer Summary:" = false) :
    modelField (parseSummary content) "records" = some "N/A"
  ∧ modelField (parseSummary content) "tps" = some "N/A"
  ∧ modelField (parseSummary content) "mbps" = some "N/A"
  ∧ modelField (parseSummary content) "avg_ms" = some "N/A"
  ∧ modelField (parseSummary content) "max_ms" = some "N/A"
  ∧ modelField (parseSummary content) "p50" = some "N/A"
  ∧ modelField (parseSummary content) "p95" = some "N/A"
  ∧ modelField (parseSummary content) "p99" = some "N/A"
  ∧ modelField (parseSummary content) "p999" = some "N/A" := by
  have hsec : extractSection content "Producer Summary:" = "" :=
    sectionGo_empty "Producer Summary:" (pySplit '\n' content) h
  simp only [parseSummary, hsec]
  exact ⟨rfl, rfl, rfl, rfl, rfl, rfl, rfl, rfl, rfl⟩

/-- C6 witness: a document whose only header occurrence is its last line. -/
theorem c6_w :
    modelField (parseSummary "x\nProducer Summary:") "records" = some "N/A"
  ∧ modelField (parseSummary "x\nProducer Summary:") "tps" = some "N/A"
  ∧ modelField (parseSummary "x\nProducer Summary:") "mbps" = some "N/A"
  ∧ modelField (parseSummary "x\nProducer Summary:") "avg_ms" = some "N/A"
  ∧ modelField (parseSummary "x\nProducer Summary:") "max_ms" = some "N/A"
  ∧ modelField (parseSummary "x\nProducer Summary:") "p50" = some "N/A"
  ∧ modelField (parseSummary "x\nProducer Summary:") "p95" = some "N/A"
  ∧ modelField (parseSummary "x\nProducer Summary:") "p99" = some "N/A"
  ∧ modelField (parseSummary "x\nProducer Summary:") "p999" = some "N/A" :=
  c6_thm "x\nProducer Summary:" (by decide)

/-- The producer metrics dict always carries the nine producer keys. -/
theorem parseProducer_keys (line : String) (pm : List (String × String))
    (h : parseProducerMetrics line = Except.ok pm) :
    pm.map Prod.fst
      = ["records", "tps", "mbps", "avg_ms", "max_ms", "p50", "p95", "p99", "p999"] := by
  by_cases hl : line = ""
  · rw [hl] at h
    have hpm : producerDefaults = pm := Except.ok.inj h
    rw [← hpm]
    rfl
  · simp only [parseProducerMetrics, if_neg hl] at h
    rcases ht : producerTps (pySplit ',' line) with eo | tps
    · rw [ht] at h
      exact Except.noConfusion h
    · rw [ht] at h
      have hpm : producerFields line (pySplit ',' line) tps = pm := Except.ok.inj h
      rw [← hpm]
      rfl

/-- The consumer metrics dict always carries the eleven consumer keys. -/
theorem parseConsumer_keys (line : String) :
    (parseConsumerMetrics line).map Prod.fst
      = ["consumer_start", "consumer_end", "consumer_duration", "consumer_mb",
         "consumer_mbps", "consumer_msgs", "consumer_msgps",
         "consumer_rebalance_ms", "consumer_fetch_ms", "consumer_fetch_mbps",
         "consumer_fetch_msgps"] := by
  by_cases hl : line = ""
  · rw [hl]
    rfl
  · rw [pcm_ne line hl]
    rfl

/-- C7: whenever `parse_summary` returns a model, the model carries every
    defined field key — identity, plan, the nine producer fields and the
    eleven consumer fields — each mapped to some string; no key is ever
    omitted. -/
theorem c7_thm (content : String) (m : List (String × String))
    (hp : parseSummary content = Except.ok m) (k : String) (hk : k ∈ modelKeys) :
    (mget m k).isSome = true := by
  apply mget_isSome_of_mem
  suffices hkeys : m.map Prod.fst = modelKeys by
    rw [hkeys]
    exact hk
  revert hp
  simp only [parseSummary]
  rcases hpp : parseProducerMetrics (extractSection content "Producer Summary:")
    with e | pm
  · intro hp
    exact Except.noConfusion hp
  · intro hp
    have hm := (Except.ok.inj hp).symm
    rw [hm, List.map_append, List.map_append, parseConsumer_keys,
        parseProducer_keys _ _ hpp]
    rfl

/-- C7 witness: the model of the empty document, with every key present. -/
theorem c7_w :
    parseSummary ""
      = Except.ok
          [("topic", "N/A"), ("bootstrap", "N/A"), ("records_line", "N/A"),
           ("producer_config", "N/A"), ("num_records", "N/A"), ("target_tps", "N/A"),
           ("payload_size", "N/A"), ("duration", "N/A"), ("records", "N/A"),
           ("tps", "N/A"), ("mbps", "N/A"), ("avg_ms", "N/A"), ("max_ms", "N/A"),
           ("p50", "N/A"), ("p95", "N/A"), ("p99", "N/A"), ("p999", "N/A"),
           ("consumer_start", "N/A"), ("consumer_end", "N/A"),
           ("consumer_duration", "N/A"), ("consumer_mb", "N/A"),
           ("consumer_mbps", "N/A"), ("consumer_msgs", "N/A"),
           ("consumer_msgps", "N/A"), ("consumer_rebalance_ms", "N/A"),
           ("consumer_fetch_ms", "N/A"), ("consumer_fetch_mbps", "N/A"),
           ("consumer_fetch_msgps", "N/A")]
  ∧ (mget
          [("topic", "N/A"), ("bootstrap", "N/A"), ("records_line", "N/A"),
           ("producer_config", "N/A"), ("num_records", "N/A"), ("target_tps", "N/A"),
           ("payload_size", "N/A"), ("duration", "N/A"), ("records", "N/A"),
           ("tps", "N/A"), ("mbps", "N/A"), ("avg_ms", "N/A"), ("max_ms", "N/A"),
           ("p50", "N/A"), ("p95", "N/A"), ("p99", "N/A"), ("p999", "N/A"),
           ("consumer_start", "N/A"), ("consumer_end", "N/A"),
           ("consumer_duration", "N/A"), ("consumer_mb", "N/A"),
           ("consumer_mbps", "N/A"), ("consumer_msgs", "N/A"),
           ("consumer_msgps", "N/A"), ("consumer_rebalance_ms", "N/A"),
           ("consumer_fetch_ms", "N/A"), ("consumer_fetch_mbps", "N/A"),
           ("consumer_fetch_msgps", "N/A")] "consumer_fetch_msgps").isSome = true := by
  constructor
  · rfl
  · exact c7_thm ""
      [("topic", "N/A"), ("bootstrap", "N/A"), ("records_line", "N/A"),
       ("producer_config", "N/A"), ("num_records", "N/A"), ("target_tps", "N/A"),
       ("payload_size", "N/A"), ("duration", "N/A"), ("records", "N/A"),
       ("tps", "N/A"), ("mbps", "N/A"), ("avg_ms", "N/A"), ("max_ms", "N/A"),
       ("p50", "N/A"), ("p95", "N/A"), ("p99", "N/A"), ("p999", "N/A"),
       ("consumer_start", "N/A"), ("consumer_end", "N/A"),
       ("consumer_duration", "N/A"), ("consumer_mb", "N/A"),
       ("consumer_mbps", "N/A"), ("consumer_msgs", "N/A"),
       ("consumer_msgps", "N/A"), ("consumer_rebalance_ms", "N/A"),
       ("consumer_fetch_ms", "N/A"), ("consumer_fetch_mbps", "N/A"),
       ("consumer_fetch_msgps", "N/A")] rfl "consumer_fetch_msgps" (by decide)

/-- C8: consumer numeric formatting thresholds.  A parsed data-consumed
    value below 0.001 MB renders as whole bytes, suffixed " bytes" (never
    "0.00 MB"); a parsed MB/s rate below 0.01 is re-expressed in KB/s with
    two decimals; and a parsed messages-per-second value strictly below 1
    keeps two decimals, while a value of 1 or more is truncated to an
    integer string.  The fetch-rate fields at positions 8 and 9 share these
    definitions verbatim. -/
theorem c8_thm (line : String) (hne : ¬ line = "") :
    (∀ raw : String, ∀ v : PyF, consumerRaw (pySplit ',' line) 2 = raw →
       ¬ raw = "N/A" → pyFloat raw = some v → v.lt ⟨1, 1000⟩ = true →
       mget (parseConsumerMetrics line) "consumer_mb"
         = some (fmtPlain0 (v.scaleMul (1024 * 1024)) ++ " bytes"))
  ∧ (∀ raw : String, ∀ v : PyF, consumerRaw (pySplit ',' line) 3 = raw →
       ¬ raw = "N/A" → pyFloat raw = some v → v.lt ⟨1, 100⟩ = true →
       mget (parseConsumerMetrics line) "consumer_mbps"
         = some (fmtPlain2 (v.scaleMul 1024) ++ " KB/s"))
  ∧ (∀ raw : String, ∀ v : PyF, consumerRaw (pySplit ',' line) 5 = raw →
       ¬ raw = "N/A" → pyFloat raw = some v →
       (v.lt ⟨1, 1⟩ = true →
          mget (parseConsumerMetrics line) "consumer_msgps" = some (fmtPlain2 v))
     ∧ (¬ v.lt ⟨1, 1⟩ = true →
          mget (parseConsumerMetrics line) "consumer_msgps"
            = some (intStr v.trunc))) := by
  refine ⟨?_, ?_, ?_⟩
  · intro raw v hraw hna hf hlt
    rw [pcm_ne line hne, mget_cons_mb]
    simp only [consumerMbF]
    rw [hraw, if_neg hna, hf]
    simp [hlt]
  · intro raw v hraw hna hf hlt
    rw [pcm_ne line hne, mget_cons_mbps]
    simp only [consumerMbpsF]
    rw [hraw, if_neg hna, hf]
    simp [hlt]
  · intro raw v hraw hna hf
    constructor
    · intro hlt
      rw [pcm_ne line hne, mget_cons_msgps]
      simp only [consumerMsgpsF]
      rw [hraw, if_neg hna, hf]
      simp [hlt]
    · intro hnlt
      rw [pcm_ne line hne, mget_cons_msgps]
      simp only [consumerMsgpsF]
      rw [hraw, if_neg hna, hf]
      simp [hnlt]

/-- C8 witness: "0.0005" MB renders "524 bytes", "0.005" MB/s renders
    "5.12 KB/s", "0.42" msg/s keeps its decimals, and "2.9" msg/s truncates
    to "2". -/
theorem c8_w :
    mget (parseConsumerMetrics "t1, t2, 0.0005, 0.005, 100, 0.42") "consumer_mb"
      = some "524 bytes"
  ∧ mget (parseConsumerMetrics "t1, t2, 0.0005, 0.005, 100, 0.42") "consumer_mbps"
      = some "5.12 KB/s"
  ∧ mget (parseConsumerMetrics "t1, t2, 0.0005, 0.005, 100, 0.42") "consumer_msgps"
      = some "0.42"
  ∧ mget (parseConsumerMetrics "t1, t2, 5, 5, 100, 2.9") "consumer_msgps"
      = some "2" := by
  have h := c8_thm "t1, t2, 0.0005, 0.005, 100, 0.42" (by decide)
  have h2 := c8_thm "t1, t2, 5, 5, 100, 2.9" (by decide)
  refine ⟨?_, ?_, ?_, ?_⟩
  · rw [h.1 "0.0005" ⟨5, 10000⟩ (by decide) (by decide) (by decide) (by decide)]
    decide
  · rw [h.2.1 "0.005" ⟨5, 1000⟩ (by decide) (by decide) (by decide) (by decide)]
    decide
  · rw [(h.2.2 "0.42" ⟨42, 100⟩ (by decide) (by decide) (by decide)).1 (by decide)]
    decide
  · rw [(h2.2.2 "2.9" ⟨29, 10⟩ (by decide) (by decide) (by decide)).2 (by decide)]
    decide

/-- C9: the generated text report always contains the configuration block
    and the producer block, with every field line present and the value
    lookup defaulting to the literal sentinel "N/A" inline (the line defs
    are built on `mgetD _ _ "N/A"`); the consumer block is appended exactly
    when the consumer message-count lookup differs from `some "N/A"` (an
    absent key — Python `None` — also differs), and when appended it carries
    every consumer field line. -/
theorem c9_thm (m : List (String × String)) :
    substrOf "📊 Test Configuration" (generate m)
  ∧ substrOf "🚀 Producer Results (TPS is most important)" (generate m)
  ∧ substrOf (cfgTopicLine m) (generate m)
  ∧ substrOf (cfgBootstrapLine m) (generate m)
  ∧ substrOf (cfgRecordsLine m) (generate m)
  ∧ substrOf (prodTpsLine m) (generate m)
  ∧ substrOf (prodThroughputLine m) (generate m)
  ∧ substrOf (prodRecordsLine m) (generate m)
  ∧ substrOf (prodAvgLine m) (generate m)
  ∧ substrOf (prodMaxLine m) (generate m)
  ∧ substrOf (prodPctLine m) (generate m)
  ∧ substrOf (prodP999Line m) (generate m)
  ∧ (¬ mget m "consumer_msgs" = some "N/A"
       ↔ generate m = textBase m ++ textConsumer m)
  ∧ (mget m "consumer_msgs" = some "N/A" → generate m = textBase m)
  ∧ (¬ mget m "consumer_msgs" = some "N/A" →
       substrOf "📥 Consumer Results" (generate m)
     ∧ substrOf (consWindowLine m) (generate m)
     ∧ substrOf (consDurationLine m) (generate m)
     ∧ substrOf (consConsumedLine m) (generate m)
     ∧ substrOf (consTpsLine m) (generate m)
     ∧ substrOf (consThroughputLine m) (generate m)
     ∧ substrOf (consFetchTimeLine m) (generate m)
     ∧ substrOf (consFetchRateLine m) (generate m)
     ∧ substrOf (consRebalanceLine m) (generate m)) := by
  have hbase : ∀ p : String, substrOf p (textBase m) → substrOf p (generate m) := by
    intro p hp
    unfold generate
    by_cases hc : mget m "consumer_msgs" = some "N/A"
    · rw [if_pos hc]
      exact hp
    · rw [if_neg hc]
      exact substrAppR _ hp
  have hcons : ¬ mget m "consumer_msgs" = some "N/A" →
      ∀ p : String, substrOf p (textConsumer m) → substrOf p (generate m) := by
    intro hc p hp
    unfold generate
    rw [if_neg hc]
    exact substrCons _ hp
  have hlen : 0 < (textConsumer m).length := by
    unfold textConsumer
    rw [strLenAppend]
    have h1 : ("\n" : String).length = 1 := rfl
    omega
  refine ⟨?_, ?_, ?_, ?_, ?_, ?_, ?_, ?_, ?_, ?_, ?_, ?_, ?_, ?_, ?_⟩
  · exact hbase _ (by unfold textBase; exact substrCons _ (substrHead _ _))
  · exact hbase _ (by unfold textBase; exact substrCons _ (substrCons _ (substrCons _ (substrCons _ (substrCons _ (substrCons _ (substrCons _ (substrHead _ _))))))))
  · exact hbase _ (by unfold textBase; exact substrCons _ (substrCons _ (substrCons _ (substrHead _ _))))
  · exact hbase _ (by unfold textBase; exact substrCons _ (substrCons _ (substrCons _ (substrCons _ (substrHead _ _)))))
  · exact hbase _ (by unfold textBase; exact substrCons _ (substrCons _ (substrCons _ (substrCons _ (substrCons _ (substrHead _ _))))))
  · exact hbase _ (by unfold textBase; exact substrCons _ (substrCons _ (substrCons _ (substrCons _ (substrCons _ (substrCons _ (substrCons _ (substrCons _ (substrCons _ (substrHead _ _))))))))))
  · exact hbase _ (by unfold textBase; exact substrCons _ (substrCons _ (substrCons _ (substrCons _ (substrCons _ (substrCons _ (substrCons _ (substrCons _ (substrCons _ (substrCons _ (substrHead _ _)))))))))))
  · exact hbase _ (by unfold textBase; exact substrCons _ (substrCons _ (substrCons _ (substrCons _ (substrCons _ (substrCons _ (substrCons _ (substrCons _ (substrCons _ (substrCons _ (substrCons _ (substrHead _ _))))))))))))
  · exact hbase _ (by unfold textBase; exact substrCons _ (substrCons _ (substrCons _ (substrCons _ (substrCons _ (substrCons _ (substrCons _ (substrCons _ (substrCons _ (substrCons _ (substrCons _ (substrCons _ (substrHead _ _)))))))))))))
  · exact hbase _ (by unfold textBase; exact substrCons _ (substrCons _ (substrCons _ (substrCons _ (substrCons _ (substrCons _ (substrCons _ (substrCons _ (substrCons _ (substrCons _ (substrCons _ (substrCons _ (substrCons _ (substrHead _ _))))))))))))))
  · exact hbase _ (by unfold textBase; exact substrCons _ (substrCons _ (substrCons _ (substrCons _ (substrCons _ (substrCons _ (substrCons _ (substrCons _ (substrCons _ (substrCons _ (substrCons _ (substrCons _ (substrCons _ (substrCons _ (substrHead _ _)))))))))))))))
  · exact hbase _ (by unfold textBase; exact substrCons _ (substrCons _ (substrCons _ (substrCons _ (substrCons _ (substrCons _ (substrCons _ (substrCons _ (substrCons _ (substrCons _ (substrCons _ (substrCons _ (substrCons _ (substrCons _ (substrTail _ _)))))))))))))))
  · constructor
    · intro hc
      unfold generate
      rw [if_neg hc]
    · intro heq
      by_cases hc : mget m "consumer_msgs" = some "N/A"
      · exfalso
        unfold generate at heq
        rw [if_pos hc] at heq
        have hl := congrArg String.length heq
        rw [strLenAppend] at hl
        omega
      · exact hc
  · intro hc
    unfold generate
    rw [if_pos hc]
  · intro hc
    refine ⟨?_, ?_, ?_, ?_, ?_, ?_, ?_, ?_, ?_⟩
    · exact hcons hc _ (by unfold textConsumer; exact substrCons _ (substrHead _ _))
    · exact hcons hc _ (by unfold textConsumer; exact substrCons _ (substrCons _ (substrCons _ (substrHead _ _))))
    · exact hcons hc _ (by unfold textConsumer; exact substrCons _ (substrCons _ (substrCons _ (substrCons _ (substrHead _ _)))))
    · exact hcons hc _ (by unfold textConsumer; exact substrCons _ (substrCons _ (substrCons _ (substrCons _ (substrCons _ (substrHead _ _))))))
    · exact hcons hc _ (by unfold textConsumer; exact substrCons _ (substrCons _ (substrCons _ (substrCons _ (substrCons _ (substrCons _ (substrHead _ _)))))))
    · exact hcons hc _ (by unfold textConsumer; exact substrCons _ (substrCons _ (substrCons _ (substrCons _ (substrCons _ (substrCons _ (substrCons _ (substrHead _ _))))))))
    · exact hcons hc _ (by unfold textConsumer; exact substrCons _ (substrCons _ (substrCons _ (substrCons _ (substrCons _ (substrCons _ (substrCons _ (substrCons _ (substrCons _ (substrHead _ _))))))))))
    · exact hcons hc _ (by unfold textConsumer; exact substrCons _ (substrCons _ (substrCons _ (substrCons _ (substrCons _ (substrCons _ (substrCons _ (substrCons _ (substrCons _ (substrCons _ (substrHead _ _)))))))))))
    · exact hcons hc _ (by unfold textConsumer; exact substrCons _ (substrCons _ (substrCons _ (substrCons _ (substrCons _ (substrCons _ (substrCons _ (substrCons _ (substrCons _ (substrCons _ (substrTail _ _)))))))))))

/-- C9 witness: a model without the message-count key gets the consumer
    block; a model where it is the sentinel does not. -/
theorem c9_w :
    generate [] = textBase [] ++ textConsumer []
  ∧ generate [("consumer_msgs", "N/A")] = textBase [("consumer_msgs", "N/A")] := by
  constructor
  · obtain ⟨-, -, -, -, -, -, -, -, -, -, -, -, hiff, -, -⟩ := c9_thm []
    exact hiff.mp (by decide)
  · obtain ⟨-, -, -, -, -, -, -, -, -, -, -, -, -, hs2, -⟩ :=
      c9_thm [("consumer_msgs", "N/A")]
    exact hs2 (by decide)

end KafkaPerf
